import Mathlib

/-!
Verification of the `gconda` utility (`src/gconda/gconda.py`).

The module is a linear scripting layer over the operating system: it resolves
executable names on the search path (`shutil.which`), spawns external
processes (`subprocess.run` / `subprocess.check_output`), reads process
environment variables (`os.environ.get`) and checks file existence
(`os.path.exists`).

We embed it shallowly as trace semantics over a read-only oracle `World`
describing the ambient OS responses.  Every top-level Python function becomes
a Lean function `World → List Event × Except Exc α`: the list records the
observable effects of the run (processes spawned, environment variables read,
file-existence checks, console prints) and the `Except` value records normal
return versus a raised Python exception.

Python exception classing that matters here: `EnvironmentError` is an alias
of `OSError` in Python 3, and `FileNotFoundError` is a subclass of `OSError`,
while `subprocess.CalledProcessError` is not an `OSError`.  `Exc.isEnvClass`
records exactly that hierarchy.

Process spawning semantics: `subprocess.run` and `subprocess.check_output`
resolve the head of the argument vector through the search path (the same
lookup `shutil.which` performs); if the name does not resolve the call raises
`FileNotFoundError` and no process runs; otherwise the process runs and
reports the exit code given by the oracle.  With `check=True` (and in
`check_output`) a non-zero exit code additionally raises
`CalledProcessError`.
-/

/-- Observable effects of a run: a spawned process (`run` is emitted only
when the executable resolved, i.e. a process actually started),
a `check_output` spawn, an environment-variable read, an `os.path.exists`
check, a `condacolab.install()` call, and console output. -/
inductive Event where
  | print (msg : String)
  | run (cmd : List String)
  | checkOutput (cmd : List String)
  | envRead (name : String)
  | pathCheck (path : String)
  | condacolabInstall
deriving DecidableEq

/-- Python exceptions raised by the module. -/
inductive Exc where
  | runtimeError (msg : String)
  | environmentError (msg : String)
  | fileNotFoundError (msg : String)
  | calledProcessError (cmd : List String)
  | pyError (msg : String)
deriving DecidableEq

/-- Whether the exception is an `OSError` (= `EnvironmentError` in Python 3).
`FileNotFoundError` is a subclass of `OSError`; `RuntimeError`,
`CalledProcessError` and generic exceptions are not. -/
def Exc.isEnvClass : Exc → Bool
  | Exc.environmentError _ => true
  | Exc.fileNotFoundError _ => true
  | _ => false

/-- The ambient operating system, as a read-only oracle of responses:
`which` is search-path resolution, `exec` gives (exit code, stdout, stderr)
of a spawned command, `env` is the process environment,
`pathExists` is `os.path.exists`, `sysExecutable` is `sys.executable`, and
`condacolab` is the outcome of `import condacolab; condacolab.install()`. -/
structure World where
  which : String → Option String
  exec : List String → Nat × String × String
  env : String → Option String
  pathExists : String → Bool
  sysExecutable : String
  condacolab : Except String Unit

/-- Result of running a code fragment: the effect trace and either a normal
return value or a raised exception. -/
abbrev Res (α : Type) := List Event × Except Exc α

/-- Sequencing of two fragments (Python `;`): on an exception the rest of the
function body is skipped, the trace so far is kept. -/
def pySeq {α β : Type} (x : Res α) (f : α → Res β) : Res β :=
  match x.2 with
  | Except.ok a => (x.1 ++ (f a).1, (f a).2)
  | Except.error e => (x.1, Except.error e)

/-- Python `try`/`except`: the handler receives the raised exception; `none`
means this `except` clause does not match and the exception propagates.
Effects performed before the raise are kept. -/
def pyTry {α : Type} (x : Res α) (handler : Exc → Option (Res α)) : Res α :=
  match x.2 with
  | Except.ok a => (x.1, Except.ok a)
  | Except.error e =>
    match handler e with
    | some h => (x.1 ++ h.1, h.2)
    | none => (x.1, Except.error e)

/-- Model of `subprocess.run(cmd)` without `check`: resolve the executable; on failure
raise `FileNotFoundError` (no process spawned, no `run` event); otherwise the
process runs and its outcome is returned, the exit code is NOT inspected. -/
def subprocessRun (w : World) (cmd : List String) : Res (Nat × String × String) :=
  match cmd.head? with
  | none => ([], Except.error (Exc.fileNotFoundError ""))
  | some name =>
    match w.which name with
    | none => ([], Except.error (Exc.fileNotFoundError name))
    | some _ => ([Event.run cmd], Except.ok (w.exec cmd))

/-- Model of `subprocess.run(cmd, check=True)`: as `subprocessRun`, but a non-zero
exit code raises `CalledProcessError`. -/
def runChecked (w : World) (cmd : List String) : Res (Nat × String × String) :=
  pySeq (subprocessRun w cmd) (fun r =>
    if r.1 ≠ 0 then ([], Except.error (Exc.calledProcessError cmd))
    else ([], Except.ok r))

/-- Model of `subprocess.check_output(cmd, text=True)`: resolve and spawn like
`subprocess.run`, record a `checkOutput` event, raise `CalledProcessError` on
a non-zero exit code, otherwise return the captured stdout. -/
def checkOutput (w : World) (cmd : List String) : Res String :=
  match cmd.head? with
  | none => ([], Except.error (Exc.fileNotFoundError ""))
  | some name =>
    match w.which name with
    | none => ([], Except.error (Exc.fileNotFoundError name))
    | some _ =>
      ([Event.checkOutput cmd],
        if (w.exec cmd).1 ≠ 0 then Except.error (Exc.calledProcessError cmd)
        else Except.ok (w.exec cmd).2.1)

/-- Python `str.strip()`: remove leading and trailing whitespace.  (Defined
over the character list so that it evaluates by kernel reduction.) -/
def pyStrip (s : String) : String :=
  String.mk (((s.toList.dropWhile Char.isWhitespace).reverse.dropWhile Char.isWhitespace).reverse)

/-- Python truthiness of `os.environ.get(...)`: falsy when the variable is
unset or set to the empty string. -/
def strOptFalsy : Option String → Bool
  | none => true
  | some s => s == ""

/-- Model of `os.path.dirname` (POSIX): everything up to the last slash, with
trailing slashes stripped unless the result is all slashes.  (Defined over
the character list so that it evaluates by kernel reduction.) -/
def dirname (p : String) : String :=
  let head := ((p.toList.reverse).dropWhile (fun c => c ≠ '/')).reverse
  if head.isEmpty then ""
  else if head.all (fun c => c = '/') then String.mk head
  else String.mk ((head.reverse.dropWhile (fun c => c = '/')).reverse)

/-- Model of `os.path.join` (POSIX) on two components: an absolute second component
wins; otherwise insert a separator unless one is already there. -/
def pathJoin (a b : String) : String :=
  if b.toList.head? = some '/' then b
  else if a = "" ∨ a.toList.getLast? = some '/' then a ++ b
  else a ++ "/" ++ b

/-! ## Embedding of the functions of `gconda.py` -/

/-- Embedding of `check_conda` (gconda.py lines 26-44): probe the search path for
`conda`; if found, query the version, treating a `CalledProcessError` as
"present but degraded" and still returning `True`; else report absence and
return `False`. -/
def check_conda (w : World) : Res Bool :=
  match w.which "conda" with
  | some _ =>
    pyTry
      (pySeq (checkOutput w ["conda", "--version"]) (fun out =>
        ([Event.print ("✅ Conda is installed. Version: " ++ pyStrip out)], Except.ok true)))
      (fun e => match e with
        | Exc.calledProcessError _ =>
          some ([Event.print "⚠️ Conda is installed, but the version could not be retrieved."],
            Except.ok true)
        | _ => none)
  | none => ([Event.print "❌ Conda is not installed."], Except.ok false)

/-- Embedding of `check_python` (gconda.py lines 47-65): probe for `python`, falling back
to `python3`; if either is found, query the version of `python` (always the
name `python`).  On `CalledProcessError` the source evaluates a bare string
literal (line 61) — not a print — and returns `True`. -/
def check_python (w : World) : Res Bool :=
  match (w.which "python").orElse (fun _ => w.which "python3") with
  | some _ =>
    pyTry
      (pySeq (checkOutput w ["python", "--version"]) (fun out =>
        ([Event.print ("✅ Python is installed. Version: " ++ pyStrip out)], Except.ok true)))
      (fun e => match e with
        | Exc.calledProcessError _ => some ([], Except.ok true)
        | _ => none)
  | none => ([Event.print "❌ Python is not installed."], Except.ok false)

/-- The pip bootstrap command `[sys.executable, "-m", "pip", "install", "-q",
"condacolab"]` of `install_conda` (gconda.py line 82). -/
def pipInstallCmd (w : World) : List String :=
  [w.sysExecutable, "-m", "pip", "install", "-q", "condacolab"]

/-- Embedding of `install_conda` (gconda.py lines 68-93): no-op when conda is already
present; otherwise pip-install `condacolab` (printing and re-raising on
`CalledProcessError`) and call `condacolab.install()` (printing and
re-raising on any exception). -/
def install_conda (w : World) : Res Unit :=
  pySeq (check_conda w) (fun ok =>
  if ok then ([Event.print "✅ Conda is already installed."], Except.ok ())
  else
    pySeq ([Event.print "ℹ️  Conda not found. Installing condacolab to install Conda..."],
        Except.ok ()) (fun _ =>
    pySeq (pyTry (runChecked w (pipInstallCmd w))
          (fun e => match e with
            | Exc.calledProcessError c =>
              some ([Event.print "❌ Error installing condacolab:"],
                Except.error (Exc.calledProcessError c))
            | _ => none)) (fun _ =>
    pyTry
      (pySeq ([Event.condacolabInstall],
            (match w.condacolab with
             | Except.ok _ => Except.ok ()
             | Except.error m => Except.error (Exc.pyError m))) (fun _ =>
        ([Event.print "✅ Conda installation complete!"], Except.ok ())))
      (fun e =>
        some ([Event.print "❌ Error during condacolab.install():"], Except.error e)))))

/-- Embedding of `fix_conda` (gconda.py lines 96-132): install if absent; else check
functioning; on `CalledProcessError`, forcibly remove the binary (checked),
reinstall, and re-verify, only logging — not raising — if the final
verification still fails. -/
def fix_conda (w : World) : Res Unit :=
  match w.which "conda" with
  | none =>
    pySeq ([Event.print "❌ Conda not found! Installing Conda..."], Except.ok ())
      (fun _ => install_conda w)
  | some conda_path =>
    pySeq ([Event.print ("ℹ️  Conda found at: " ++ conda_path)], Except.ok ()) (fun _ =>
    pySeq (pyTry
          (pySeq (runChecked w ["conda", "--version"]) (fun _ =>
            ([Event.print "✅ Conda is working properly!"], Except.ok true)))
          (fun e => match e with
            | Exc.calledProcessError _ =>
              some ([Event.print "⚠️  Error: Conda is not functioning properly. Attempting to fix..."],
                Except.ok false)
            | _ => none)) (fun working =>
    if working then ([], Except.ok ())
    else
      pySeq ([Event.print "🔧 Removing the problematic Conda..."], Except.ok ()) (fun _ =>
      pySeq (runChecked w ["sudo", "rm", "-f", conda_path]) (fun _ =>
      pySeq ([Event.print "🔄 Reinstalling Conda..."], Except.ok ()) (fun _ =>
      pySeq (install_conda w) (fun _ =>
      pyTry
        (pySeq (runChecked w ["conda", "--version"]) (fun _ =>
          ([Event.print "✅ Conda has been repaired successfully!"], Except.ok ())))
        (fun e => match e with
          | Exc.calledProcessError _ =>
            some ([Event.print "❌ Error: Conda is still not functioning! Please review the installation process."],
              Except.ok ())
          | _ => none)))))))

/-- The environment-creation command of `setup_env` (gconda.py line 160). -/
def createCmd (python_version env_name : String) : List String :=
  ["conda", "create", "-n", env_name, "python=" ++ python_version, "ipython", "-y"]

/-- The path `os.path.join(base_dir, "envs", env_name, "bin")`. -/
def envBinPath (base_dir env_name : String) : String :=
  pathJoin (pathJoin (pathJoin base_dir "envs") env_name) "bin"

/-- The six elevated symlink-mutation commands of `setup_env`
(gconda.py lines 187-194): three removals then three symlink creations. -/
def symlinkCommands (python_path base_dir env_name : String) : List (List String) :=
  let python_dir := dirname python_path
  let new_python := pathJoin (envBinPath base_dir env_name) "python3"
  let new_pip := pathJoin (envBinPath base_dir env_name) "pip"
  [["sudo", "rm", "-f", python_path],
   ["sudo", "rm", "-f", pathJoin python_dir "python3"],
   ["sudo", "rm", "-f", pathJoin python_dir "pip"],
   ["sudo", "ln", "-sf", new_python, python_path],
   ["sudo", "ln", "-sf", new_python, pathJoin python_dir "python3"],
   ["sudo", "ln", "-sf", new_pip, pathJoin python_dir "pip"]]

/-- The body of the `for cmd in commands` loop of `setup_env`
(gconda.py lines 196-202): print, run, and raise `RuntimeError` when the
exit code is non-zero. -/
def runOneCommand (w : World) (cmd : List String) : Res Unit :=
  pySeq ([Event.print ("➡️  Executing command: " ++ String.intercalate " " cmd)],
      Except.ok ()) (fun _ =>
  pySeq (subprocessRun w cmd) (fun res =>
  if res.1 ≠ 0 then
    ([Event.print ("❌ Error executing command: " ++ String.intercalate " " cmd),
      Event.print ("stderr: " ++ res.2.2)],
     Except.error (Exc.runtimeError ("Command " ++ String.intercalate " " cmd ++ " failed.")))
  else ([], Except.ok ())))

/-- The `for cmd in commands` loop of `setup_env`. -/
def runCommands (w : World) : List (List String) → Res Unit
  | [] => ([], Except.ok ())
  | c :: cs => pySeq (runOneCommand w c) (fun _ => runCommands w cs)

/-- Embedding of `setup_env` (gconda.py lines 135-208): ensure conda, create the
environment (fatal `RuntimeError` on non-zero exit), resolve the base
directory and the current `python` path, run the six symlink commands
(fatal `RuntimeError` on any non-zero exit), then verify. -/
def setup_env (w : World) (python_version env_name : String) : Res Unit :=
  pySeq (check_conda w) (fun ok =>
  pySeq (if ok then ([], Except.ok ())
       else
         pySeq ([Event.print "❌ Conda is not installed. Please run install_conda() and try again.",
               Event.print "ℹ️  Automatically calling install_conda() to install Conda...",
               Event.print "ℹ️  Note: This process may restart the kernel. If the environment is not set up, please run setup_env again."],
             Except.ok ()) (fun _ => install_conda w)) (fun _ =>
  pySeq ([Event.print ("🚀 Creating new Conda environment \x27" ++ env_name ++ "\x27 with Python " ++ python_version ++ "...")],
      Except.ok ()) (fun _ =>
  pySeq (subprocessRun w (createCmd python_version env_name)) (fun result =>
  pySeq (if result.1 ≠ 0 then
        ([Event.print "❌ Error creating Conda environment:", Event.print result.2.2],
         Except.error (Exc.runtimeError "Failed to create Conda environment."))
       else
        ([Event.print ("✅ Environment \x27" ++ env_name ++ "\x27 created successfully!")],
         Except.ok ())) (fun _ =>
  pySeq (pyTry
        (pySeq (checkOutput w ["conda", "info", "--base"]) (fun out =>
          ([], Except.ok (pyStrip out))))
        (fun e => match e with
          | Exc.calledProcessError c =>
            some ([Event.print "❌ Unable to determine Conda base directory:"],
              Except.error (Exc.calledProcessError c))
          | _ => none)) (fun base_dir =>
  match w.which "python" with
  | none => ([], Except.error (Exc.environmentError "❌ Python executable not found in PATH."))
  | some python_path =>
    pySeq ([Event.print "🔧 Updating symbolic links for python and pip (requires sudo privileges)..."],
        Except.ok ()) (fun _ =>
    pySeq (runCommands w (symlinkCommands python_path base_dir env_name)) (fun _ =>
    pySeq ([Event.print "✅ Symbolic links updated successfully!",
          Event.print "ℹ️  Verifying updated python and pip versions:"], Except.ok ()) (fun _ =>
    pySeq (subprocessRun w ["python", "--version"]) (fun _ =>
    pySeq (subprocessRun w ["pip", "--version"]) (fun _ =>
    ([Event.print ("🎉 Python environment switched to \x27" ++ env_name ++ "\x27 successfully!")],
     Except.ok ()))))))))))))

/-- The error message of `run_library_command` when `CONDA_DEFAULT_ENV` is
unset (gconda.py lines 242-245). -/
def defaultEnvErrMsg : String :=
  "❌ Current Conda environment could not be determined (CONDA_DEFAULT_ENV is not set). Please activate the desired environment."

/-- The error message of `run_library_command` when the command is missing
from the environment bin directory (gconda.py line 255). -/
def cmdNotFoundMsg (cmd_name current_env env_bin : String) : String :=
  "❌ Command " ++ cmd_name ++ " not found in environment " ++ current_env ++ " at " ++ env_bin ++ "."

/-- Embedding of `run_library_command` (gconda.py lines 211-257): run the command
directly when its name resolves on the search path; otherwise query the
conda base directory, read `CONDA_DEFAULT_ENV` (raising `EnvironmentError`
when falsy), and run `<base>/envs/<env>/bin/<cmd_name>` if that file exists,
else raise `FileNotFoundError`. -/
def run_library_command (w : World) (cmd_name : String) (args : List String) : Res Unit :=
  pySeq ([Event.print ("🚀 Attempting to run command: " ++ String.intercalate " " (cmd_name :: args))],
      Except.ok ()) (fun _ =>
  if (w.which cmd_name).isSome then
    pySeq (subprocessRun w (cmd_name :: args)) (fun _ => ([], Except.ok ()))
  else
    pySeq (pyTry
          (pySeq (checkOutput w ["conda", "info", "--base"]) (fun out =>
            ([], Except.ok (pyStrip out))))
          (fun e => match e with
            | Exc.calledProcessError c =>
              some ([Event.print "❌ Unable to determine Conda base directory:"],
                Except.error (Exc.calledProcessError c))
            | _ => none)) (fun base_dir =>
    pySeq ([Event.envRead "CONDA_DEFAULT_ENV"], Except.ok (w.env "CONDA_DEFAULT_ENV")) (fun ce =>
    if strOptFalsy ce then
      ([Event.print defaultEnvErrMsg], Except.error (Exc.environmentError defaultEnvErrMsg))
    else
      let current_env := ce.getD ""
      let env_bin := envBinPath base_dir current_env
      let cmd_path := pathJoin env_bin cmd_name
      pySeq ([Event.pathCheck cmd_path], Except.ok (w.pathExists cmd_path)) (fun ex =>
      if ex then
        pySeq ([Event.print ("🚀 Running command from " ++ cmd_path)], Except.ok ()) (fun _ =>
        pySeq (subprocessRun w (cmd_path :: args)) (fun _ => ([], Except.ok ())))
      else
        ([Event.print (cmdNotFoundMsg cmd_name current_env env_bin)],
         Except.error (Exc.fileNotFoundError (cmdNotFoundMsg cmd_name current_env env_bin)))))))

/-! ## Trace helpers -/

/-- The commands actually executed (processes spawned) during a run, in
order. -/
def runEvents (tr : List Event) : List (List String) :=
  tr.filterMap (fun e => match e with | Event.run c => some c | _ => none)

@[simp] theorem runEvents_nil : runEvents [] = [] := rfl

@[simp] theorem runEvents_append (t u : List Event) :
    runEvents (t ++ u) = runEvents t ++ runEvents u :=
  List.filterMap_append t u _

@[simp] theorem runEvents_print (s : String) (t : List Event) :
    runEvents (Event.print s :: t) = runEvents t := rfl

@[simp] theorem runEvents_run (c : List String) (t : List Event) :
    runEvents (Event.run c :: t) = c :: runEvents t := rfl

@[simp] theorem runEvents_checkOutput (c : List String) (t : List Event) :
    runEvents (Event.checkOutput c :: t) = runEvents t := rfl

@[simp] theorem runEvents_envRead (s : String) (t : List Event) :
    runEvents (Event.envRead s :: t) = runEvents t := rfl

@[simp] theorem runEvents_pathCheck (s : String) (t : List Event) :
    runEvents (Event.pathCheck s :: t) = runEvents t := rfl

@[simp] theorem runEvents_condacolab (t : List Event) :
    runEvents (Event.condacolabInstall :: t) = runEvents t := rfl

/-- Whether an event reads a process environment variable. -/
def isEnvReadEvent : Event → Bool
  | Event.envRead _ => true
  | _ => false

/-- Whether an event queries the package manager for its base directory. -/
def isBaseQueryEvent : Event → Bool
  | Event.checkOutput c => c == ["conda", "info", "--base"]
  | Event.run c => c == ["conda", "info", "--base"]
  | _ => false

/-- Whether an event checks file existence (`os.path.exists`). -/
def isPathCheckEvent : Event → Bool
  | Event.pathCheck _ => true
  | _ => false

/-! ## Characterization of the probes -/

/-- When `conda` resolves on the search path, `check_conda` returns `True`
(whatever the version query does) and spawns no `run`-style process. -/
theorem check_conda_present (w : World) (p : String) (h : w.which "conda" = some p) :
    (check_conda w).2 = Except.ok true ∧ runEvents (check_conda w).1 = [] := by
  by_cases hc : (w.exec ["conda", "--version"]).1 = 0 <;>
    simp [check_conda, h, pyTry, pySeq, checkOutput, runEvents, hc]

/-- When `conda` does not resolve, `check_conda` prints the absence message
and returns `False`. -/
theorem check_conda_absent (w : World) (h : w.which "conda" = none) :
    check_conda w = ([Event.print "❌ Conda is not installed."], Except.ok false) := by
  simp [check_conda, h]

/-! ## Concrete worlds used by the witnesses -/

/-- A world where `conda`, `python` and `python3` resolve but every spawned
process exits with code 2. -/
def wDegraded : World where
  which := fun n =>
    if n = "conda" ∨ n = "python" ∨ n = "python3" then some ("/usr/bin/" ++ n) else none
  exec := fun _ => (2, "", "")
  env := fun _ => none
  pathExists := fun _ => false
  sysExecutable := "/usr/bin/python3"
  condacolab := Except.ok ()

/-- A world with an empty search path: nothing resolves. -/
def wEmpty : World where
  which := fun _ => none
  exec := fun _ => (0, "", "")
  env := fun _ => none
  pathExists := fun _ => false
  sysExecutable := "/usr/bin/python3"
  condacolab := Except.ok ()

/-- A world where only `python3` resolves on the search path. -/
def wPy3 : World where
  which := fun n => if n = "python3" then some "/usr/bin/python3" else none
  exec := fun _ => (0, "Python 3.10.12", "")
  env := fun _ => none
  pathExists := fun _ => false
  sysExecutable := "/usr/bin/python3"
  condacolab := Except.ok ()

/-! ## C6 -/

/-- C6: for both probes, when the probed executable is found on the search
path but the version query exits with a non-zero code, the probe still
returns `True` (a normal, successful return — no `False`, no exception). -/
theorem probes_degraded_still_true (w1 w2 : World)
    (h1 : (w1.which "conda").isSome) (h2 : (w1.exec ["conda", "--version"]).1 ≠ 0)
    (h3 : (w2.which "python").isSome) (h4 : (w2.exec ["python", "--version"]).1 ≠ 0) :
    (check_conda w1).2 = Except.ok true ∧ (check_python w2).2 = Except.ok true := by
  obtain ⟨p1, hp1⟩ := Option.isSome_iff_exists.mp h1
  obtain ⟨p2, hp2⟩ := Option.isSome_iff_exists.mp h3
  constructor
  · simp [check_conda, hp1, pyTry, pySeq, checkOutput, h2]
  · simp [check_python, hp2, Option.orElse, pyTry, pySeq, checkOutput, h4]

/-- Witness for C6 at the concrete world `wDegraded`. -/
theorem probes_degraded_still_true_witness :
    (check_conda wDegraded).2 = Except.ok true ∧ (check_python wDegraded).2 = Except.ok true :=
  probes_degraded_still_true wDegraded wDegraded (by decide) (by decide) (by decide) (by decide)

/-! ## C7 -/

/-- C7: for both probes, when the probed executable names resolve to nothing
on the search path, the probe prints the absence message and returns `False`
without raising: the full run is exactly one print and a normal `False`. -/
theorem probes_absent_return_false (w1 w2 : World)
    (h1 : w1.which "conda" = none)
    (h2 : w2.which "python" = none) (h3 : w2.which "python3" = none) :
    check_conda w1 = ([Event.print "❌ Conda is not installed."], Except.ok false) ∧
    check_python w2 = ([Event.print "❌ Python is not installed."], Except.ok false) := by
  constructor
  · simp [check_conda, h1]
  · simp [check_python, h2, h3, Option.orElse]

/-- Witness for C7 at the concrete world `wEmpty`. -/
theorem probes_absent_return_false_witness :
    check_conda wEmpty = ([Event.print "❌ Conda is not installed."], Except.ok false) ∧
    check_python wEmpty = ([Event.print "❌ Python is not installed."], Except.ok false) :=
  probes_absent_return_false wEmpty wEmpty rfl rfl rfl

/-! ## C9 -/

/-- C9: `check_python` always queries the version through the name `python`;
when only `python3` resolves on the search path, the probe takes the
"installed" branch but the version query raises `FileNotFoundError`, which
the `except subprocess.CalledProcessError` clause does not catch, so
`check_python` raises instead of returning a boolean. -/
theorem check_python_python3_only_raises (w : World) (p : String)
    (h1 : w.which "python" = none) (h2 : w.which "python3" = some p) :
    (check_python w).2 = Except.error (Exc.fileNotFoundError "python") := by
  simp [check_python, h1, h2, Option.orElse, pyTry, pySeq, checkOutput]

/-- Witness for C9 at the concrete world `wPy3`. -/
theorem check_python_python3_only_raises_witness :
    (check_python wPy3).2 = Except.error (Exc.fileNotFoundError "python") :=
  check_python_python3_only_raises wPy3 "/usr/bin/python3" rfl rfl

/-! ## C8 -/

/-- A world where `conda` and `sudo` resolve, the removal command succeeds,
but every `conda --version` query exits with code 1 (so the initial
functional check fails and the post-repair verification fails again). -/
def wBroken : World where
  which := fun n =>
    if n = "conda" then some "/opt/conda/bin/conda"
    else if n = "sudo" then some "/usr/bin/sudo" else none
  exec := fun c => if c = ["conda", "--version"] then (1, "", "broken") else (0, "", "")
  env := fun _ => none
  pathExists := fun _ => false
  sysExecutable := "/usr/bin/python3"
  condacolab := Except.ok ()

/-- C8: when the conda binary is found, the functional check fails, the
forced removal succeeds and the reinstallation path completes, yet the final
verification still fails, `fix_conda` prints the failure message and returns
normally instead of raising. -/
theorem fix_conda_final_failure_logs_only (w : World) (p q : String)
    (hc : w.which "conda" = some p)
    (hv : (w.exec ["conda", "--version"]).1 ≠ 0)
    (hs : w.which "sudo" = some q)
    (hrm : (w.exec ["sudo", "rm", "-f", p]).1 = 0) :
    (fix_conda w).2 = Except.ok () ∧
    Event.print "❌ Error: Conda is still not functioning! Please review the installation process."
      ∈ (fix_conda w).1 := by
  simp [fix_conda, hc, hv, hs, hrm, pyTry, pySeq, runChecked, subprocessRun,
    install_conda, check_conda, checkOutput]

/-- Witness for C8 at the concrete world `wBroken`. -/
theorem fix_conda_final_failure_logs_only_witness :
    (fix_conda wBroken).2 = Except.ok () ∧
    Event.print "❌ Error: Conda is still not functioning! Please review the installation process."
      ∈ (fix_conda wBroken).1 :=
  fix_conda_final_failure_logs_only wBroken "/opt/conda/bin/conda" "/usr/bin/sudo"
    (by decide) (by decide) (by decide) (by decide)

/-! ## C3 -/

/-- Helper shared by the C3 and C10 theorems: a resolvable command name is
run directly, the whole run being one print and one process spawn. -/
theorem runDirectSpec (w : World) (cmd_name : String) (args : List String)
    (h : (w.which cmd_name).isSome) :
    (run_library_command w cmd_name args).2 = Except.ok () ∧
    (run_library_command w cmd_name args).1 =
      [Event.print ("🚀 Attempting to run command: " ++ String.intercalate " " (cmd_name :: args)),
       Event.run (cmd_name :: args)] := by
  obtain ⟨p, hp⟩ := Option.isSome_iff_exists.mp h
  simp [run_library_command, hp, pySeq, subprocessRun]

/-- C3: when the command name resolves on the search path,
`run_library_command` runs exactly the supplied command with the supplied
arguments and returns: the whole run is one print and one process spawn —
in particular no environment variable is read and no base-directory query is
made. -/
theorem run_library_command_direct (w : World) (cmd_name : String) (args : List String)
    (h : (w.which cmd_name).isSome) :
    (run_library_command w cmd_name args).2 = Except.ok () ∧
    (run_library_command w cmd_name args).1 =
      [Event.print ("🚀 Attempting to run command: " ++ String.intercalate " " (cmd_name :: args)),
       Event.run (cmd_name :: args)] :=
  runDirectSpec w cmd_name args h

/-- A world where only `gdown` resolves and every process exits with code 7. -/
def wNonzero : World where
  which := fun n => if n = "gdown" then some "/usr/bin/gdown" else none
  exec := fun _ => (7, "", "")
  env := fun _ => none
  pathExists := fun _ => false
  sysExecutable := "/usr/bin/python3"
  condacolab := Except.ok ()

/-- Witness for C3 at the concrete world `wNonzero`. -/
theorem run_library_command_direct_witness :
    (run_library_command wNonzero "gdown" ["--version"]).2 = Except.ok () ∧
    (run_library_command wNonzero "gdown" ["--version"]).1 =
      [Event.print ("🚀 Attempting to run command: " ++ String.intercalate " " ["gdown", "--version"]),
       Event.run ["gdown", "--version"]] :=
  run_library_command_direct wNonzero "gdown" ["--version"] (by decide)

/-! ## C5 and C10 -/

/-- The conda base directory as computed in the fallback path of
`run_library_command`: the stripped stdout of `conda info --base`. -/
def fallbackBase (w : World) : String :=
  pyStrip (w.exec ["conda", "info", "--base"]).2.1

/-- The fallback executable path `<base>/envs/<env>/bin/<cmd_name>` built by
`run_library_command`. -/
def fallbackCmdPath (w : World) (current_env cmd_name : String) : String :=
  pathJoin (envBinPath (fallbackBase w) current_env) cmd_name

/-- Helper shared by the C5 and C10 theorems: behaviour of the fallback
path of `run_library_command` depending on whether the resolved file
exists. -/
theorem runFallbackSpec (w : World) (cmd_name en : String) (args : List String)
    (h1 : w.which cmd_name = none)
    (h2 : (w.which "conda").isSome)
    (h3 : (w.exec ["conda", "info", "--base"]).1 = 0)
    (h4 : w.env "CONDA_DEFAULT_ENV" = some en)
    (h5 : en ≠ "") :
    (w.pathExists (fallbackCmdPath w en cmd_name) = true →
     (w.which (fallbackCmdPath w en cmd_name)).isSome →
     runEvents (run_library_command w cmd_name args).1 = [fallbackCmdPath w en cmd_name :: args] ∧
     (run_library_command w cmd_name args).2 = Except.ok ()) ∧
    (w.pathExists (fallbackCmdPath w en cmd_name) = false →
     (run_library_command w cmd_name args).2 =
       Except.error (Exc.fileNotFoundError
         (cmdNotFoundMsg cmd_name en (envBinPath (fallbackBase w) en)))) := by
  obtain ⟨p, hp⟩ := Option.isSome_iff_exists.mp h2
  constructor
  · intro hex hres
    obtain ⟨q, hq⟩ := Option.isSome_iff_exists.mp hres
    simp only [fallbackCmdPath, fallbackBase] at hex hq
    simp [run_library_command, h1, hp, h3, h4, h5, hex, hq, pyTry, pySeq, checkOutput,
      subprocessRun, strOptFalsy, fallbackCmdPath, fallbackBase, runEvents]
  · intro hex
    simp only [fallbackCmdPath, fallbackBase] at hex
    simp [run_library_command, h1, hp, h3, h4, h5, hex, pyTry, pySeq, checkOutput,
      subprocessRun, strOptFalsy, fallbackCmdPath, fallbackBase]

/-- C5: when the command name does not resolve, the base query succeeds,
`CONDA_DEFAULT_ENV` is set (non-empty), and a file exists at
`<base>/envs/<env>/bin/<cmd_name>`, the runner spawns exactly that resolved
path with the supplied arguments; when no file exists there it raises
`FileNotFoundError` instead. -/
theorem run_library_command_fallback (w : World) (cmd_name en : String) (args : List String)
    (h1 : w.which cmd_name = none)
    (h2 : (w.which "conda").isSome)
    (h3 : (w.exec ["conda", "info", "--base"]).1 = 0)
    (h4 : w.env "CONDA_DEFAULT_ENV" = some en)
    (h5 : en ≠ "") :
    (w.pathExists (fallbackCmdPath w en cmd_name) = true →
     (w.which (fallbackCmdPath w en cmd_name)).isSome →
     runEvents (run_library_command w cmd_name args).1 = [fallbackCmdPath w en cmd_name :: args] ∧
     (run_library_command w cmd_name args).2 = Except.ok ()) ∧
    (w.pathExists (fallbackCmdPath w en cmd_name) = false →
     (run_library_command w cmd_name args).2 =
       Except.error (Exc.fileNotFoundError
         (cmdNotFoundMsg cmd_name en (envBinPath (fallbackBase w) en)))) :=
  runFallbackSpec w cmd_name en args h1 h2 h3 h4 h5

/-- A world where `gdown` does not resolve, `conda info --base` reports
`/opt/conda`, `CONDA_DEFAULT_ENV` is `gconda`, the fallback executable
exists, and every spawned process other than the base query exits with
code 9. -/
def wEnvBin : World where
  which := fun n =>
    if n = "conda" then some "/usr/bin/conda"
    else if n = "/opt/conda/envs/gconda/bin/gdown" then some "/opt/conda/envs/gconda/bin/gdown"
    else none
  exec := fun c => if c = ["conda", "info", "--base"] then (0, "/opt/conda\n", "") else (9, "", "")
  env := fun n => if n = "CONDA_DEFAULT_ENV" then some "gconda" else none
  pathExists := fun p => p = "/opt/conda/envs/gconda/bin/gdown"
  sysExecutable := "/usr/bin/python3"
  condacolab := Except.ok ()

/-- Witness for C5 at the concrete world `wEnvBin`. -/
theorem run_library_command_fallback_witness :
    runEvents (run_library_command wEnvBin "gdown" ["--version"]).1 =
      [fallbackCmdPath wEnvBin "gconda" "gdown" :: ["--version"]] ∧
    (run_library_command wEnvBin "gdown" ["--version"]).2 = Except.ok () :=
  (run_library_command_fallback wEnvBin "gdown" "gconda" ["--version"]
    (by decide) (by decide) (by decide) (by decide) (by decide)).1 (by decide) (by decide)

/-- C10: `run_library_command` never inspects the exit code of the command
it spawns: whenever the command is found — directly on the search path, or
as an existing file in the active environment bin directory — the function
returns normally, for every world and hence for every exit code the spawned
command reports. -/
theorem run_library_command_ignores_exit_code (w : World) (cmd_name : String) (args : List String) :
    ((w.which cmd_name).isSome → (run_library_command w cmd_name args).2 = Except.ok ()) ∧
    (∀ en, w.which cmd_name = none →
      (w.which "conda").isSome →
      (w.exec ["conda", "info", "--base"]).1 = 0 →
      w.env "CONDA_DEFAULT_ENV" = some en →
      en ≠ "" →
      w.pathExists (fallbackCmdPath w en cmd_name) = true →
      (w.which (fallbackCmdPath w en cmd_name)).isSome →
      (run_library_command w cmd_name args).2 = Except.ok ()) := by
  constructor
  · intro h
    exact (runDirectSpec w cmd_name args h).1
  · intro en h1 h2 h3 h4 h5 h6 h7
    exact ((runFallbackSpec w cmd_name en args h1 h2 h3 h4 h5).1 h6 h7).2

/-- Witness for C10: the spawned commands exit with codes 7 and 9 in the two
worlds, yet both runs return normally. -/
theorem run_library_command_ignores_exit_code_witness :
    (run_library_command wNonzero "gdown" ["--version"]).2 = Except.ok () ∧
    (run_library_command wEnvBin "gdown" ["--version"]).2 = Except.ok () :=
  ⟨(run_library_command_ignores_exit_code wNonzero "gdown" ["--version"]).1 (by decide),
   (run_library_command_ignores_exit_code wEnvBin "gdown" ["--version"]).2 "gconda"
     (by decide) (by decide) (by decide) (by decide) (by decide) (by decide) (by decide)⟩

/-! ## C4 -/

/-- Classing of the final outcome: `true` iff the run raised an exception of
the `OSError`/`EnvironmentError` family. -/
def resultEnvClass {α : Type} : Except Exc α → Bool
  | Except.error e => e.isEnvClass
  | Except.ok _ => false

/-- A world where `conda` resolves but every process exits with code 1, the
command name does not resolve, and no environment variable is set: the base
query of `run_library_command` raises `CalledProcessError`. -/
def wBaseFail : World where
  which := fun n => if n = "conda" then some "/usr/bin/conda" else none
  exec := fun _ => (1, "", "")
  env := fun _ => none
  pathExists := fun _ => false
  sysExecutable := "/usr/bin/python3"
  condacolab := Except.ok ()

/-- Counterexample to C4 as stated: in `wBaseFail` the command is not
resolvable and `CONDA_DEFAULT_ENV` is unset, yet `run_library_command`
raises `CalledProcessError` — which is not in the `OSError`
(`EnvironmentError`) family — because the base-directory query itself fails
before the environment variable is ever read. -/
theorem run_library_command_no_active_env_counterexample :
    wBaseFail.which "gdown" = none ∧
    wBaseFail.env "CONDA_DEFAULT_ENV" = none ∧
    (run_library_command wBaseFail "gdown" ["--version"]).2 =
      Except.error (Exc.calledProcessError ["conda", "info", "--base"]) ∧
    Exc.isEnvClass (Exc.calledProcessError ["conda", "info", "--base"]) = false := by
  refine ⟨rfl, rfl, ?_, rfl⟩
  simp [run_library_command, wBaseFail, pyTry, pySeq, checkOutput, subprocessRun]

/-- C4 amended: when the command name does not resolve and
`CONDA_DEFAULT_ENV` is unset (or empty), `run_library_command` raises an
`OSError`-family ("resource not found"-class) error without spawning any
process and without any filesystem check — provided the base-directory query
does not itself fail with a non-zero exit code (if it does, the
`CalledProcessError` propagates instead). -/
theorem run_library_command_no_active_env (w : World) (cmd_name : String) (args : List String)
    (h1 : w.which cmd_name = none)
    (h2 : strOptFalsy (w.env "CONDA_DEFAULT_ENV") = true)
    (h3 : w.which "conda" = none ∨ (w.exec ["conda", "info", "--base"]).1 = 0) :
    resultEnvClass (run_library_command w cmd_name args).2 = true ∧
    runEvents (run_library_command w cmd_name args).1 = [] ∧
    (run_library_command w cmd_name args).1.all (fun e => !isPathCheckEvent e) = true := by
  rcases hq : w.which "conda" with _ | p
  · simp [run_library_command, h1, hq, pyTry, pySeq, checkOutput, resultEnvClass,
      Exc.isEnvClass, runEvents, isPathCheckEvent]
  · have h3' : (w.exec ["conda", "info", "--base"]).1 = 0 := by
      rcases h3 with h | h
      · rw [hq] at h; exact absurd h (by simp)
      · exact h
    simp [run_library_command, h1, hq, h3', h2, pyTry, pySeq, checkOutput, resultEnvClass,
      Exc.isEnvClass, runEvents, isPathCheckEvent]

/-- A world where `conda` resolves and reports a base directory but the
command does not resolve and no environment variable is set. -/
def wNoActive : World where
  which := fun n => if n = "conda" then some "/usr/bin/conda" else none
  exec := fun _ => (0, "/opt/conda\n", "")
  env := fun _ => none
  pathExists := fun _ => false
  sysExecutable := "/usr/bin/python3"
  condacolab := Except.ok ()

/-- Witness for the amended C4 at the concrete world `wNoActive`. -/
theorem run_library_command_no_active_env_witness :
    resultEnvClass (run_library_command wNoActive "gdown" ["--version"]).2 = true ∧
    runEvents (run_library_command wNoActive "gdown" ["--version"]).1 = [] ∧
    (run_library_command wNoActive "gdown" ["--version"]).1.all (fun e => !isPathCheckEvent e) = true :=
  run_library_command_no_active_env wNoActive "gdown" ["--version"]
    (by decide) (by decide) (Or.inr (by decide))

/-! ## C1 -/

/-- C1: a run of `setup_env` in which the environment-creation command exits
with a non-zero return code (the command runs exactly when `conda` resolves
on the search path) raises `RuntimeError` and spawns no process other than
the creation command itself — in particular none of the six symlink-mutation
commands is executed. -/
theorem setup_env_create_failure (w : World) (pv en p : String)
    (hc : w.which "conda" = some p)
    (hx : (w.exec (createCmd pv en)).1 ≠ 0) :
    (setup_env w pv en).2 = Except.error (Exc.runtimeError "Failed to create Conda environment.") ∧
    runEvents (setup_env w pv en).1 = [createCmd pv en] := by
  obtain ⟨hr, ht⟩ := check_conda_present w p hc
  have hh : (createCmd pv en).head? = some "conda" := rfl
  simp [setup_env, pySeq, pyTry, hr, ht, hc, hh, hx, subprocessRun]

/-- A world where `conda` resolves but the creation command exits with
code 1. -/
def wCreateFail : World where
  which := fun n => if n = "conda" then some "/usr/bin/conda" else none
  exec := fun c => if c = createCmd "3.10" "gconda" then (1, "", "boom") else (0, "", "")
  env := fun _ => none
  pathExists := fun _ => false
  sysExecutable := "/usr/bin/python3"
  condacolab := Except.ok ()

/-- Witness for C1 at the concrete world `wCreateFail`. -/
theorem setup_env_create_failure_witness :
    (setup_env wCreateFail "3.10" "gconda").2 =
      Except.error (Exc.runtimeError "Failed to create Conda environment.") ∧
    runEvents (setup_env wCreateFail "3.10" "gconda").1 = [createCmd "3.10" "gconda"] :=
  setup_env_create_failure wCreateFail "3.10" "gconda" "/usr/bin/conda" (by decide) (by decide)

/-! ## C2 -/

/-- When every command in the list resolves and exits with code 0, the
symlink loop completes normally and spawns exactly the listed commands in
order. -/
theorem runCommands_all_ok (w : World) (cs : List (List String))
    (hres : ∀ c ∈ cs, ∃ nm, c.head? = some nm ∧ (w.which nm).isSome)
    (hok : ∀ c ∈ cs, (w.exec c).1 = 0) :
    (runCommands w cs).2 = Except.ok () ∧ runEvents (runCommands w cs).1 = cs := by
  induction cs with
  | nil => simp [runCommands]
  | cons c cs ih =>
    obtain ⟨nm, hh, hw⟩ := hres c (by simp)
    obtain ⟨q, hq⟩ := Option.isSome_iff_exists.mp hw
    have hz : (w.exec c).1 = 0 := hok c (by simp)
    have ih2 := ih (fun d hd => hres d (by simp [hd])) (fun d hd => hok d (by simp [hd]))
    simp [runCommands, runOneCommand, subprocessRun, pySeq, hh, hq, hz, ih2.1, ih2.2]

/-- When the commands before `c` succeed and `c` exits with a non-zero code,
the symlink loop raises `RuntimeError` naming `c`, having spawned exactly the
prefix plus `c` — the later commands are not executed and nothing is rolled
back. -/
theorem runCommands_fail_at (w : World) (pre : List (List String)) (c : List String)
    (post : List (List String))
    (hpreres : ∀ d ∈ pre, ∃ nm, d.head? = some nm ∧ (w.which nm).isSome)
    (hpreok : ∀ d ∈ pre, (w.exec d).1 = 0)
    (hcres : ∃ nm, c.head? = some nm ∧ (w.which nm).isSome)
    (hcz : (w.exec c).1 ≠ 0) :
    (runCommands w (pre ++ c :: post)).2 =
      Except.error (Exc.runtimeError ("Command " ++ String.intercalate " " c ++ " failed.")) ∧
    runEvents (runCommands w (pre ++ c :: post)).1 = pre ++ [c] := by
  induction pre with
  | nil =>
    obtain ⟨nm, hh, hw⟩ := hcres
    obtain ⟨q, hq⟩ := Option.isSome_iff_exists.mp hw
    simp [runCommands, runOneCommand, subprocessRun, pySeq, hh, hq, hcz]
  | cons d pre ih =>
    obtain ⟨nm, hh, hw⟩ := hpreres d (by simp)
    obtain ⟨q, hq⟩ := Option.isSome_iff_exists.mp hw
    have hz : (w.exec d).1 = 0 := hpreok d (by simp)
    have ih2 := ih (fun e he => hpreres e (by simp [he])) (fun e he => hpreok e (by simp [he]))
    simp [runCommands, runOneCommand, subprocessRun, pySeq, hh, hq, hz, ih2.1, ih2.2]

/-- Every one of the six symlink-mutation commands is invoked through
`sudo`. -/
theorem symlinkCommands_head (pp b en : String) :
    ∀ c ∈ symlinkCommands pp b en, c.head? = some "sudo" := by
  intro c hcm
  simp [symlinkCommands] at hcm
  rcases hcm with rfl | rfl | rfl | rfl | rfl | rfl <;> rfl

/-- C2: with creation and the base query succeeding and `python` resolvable,
`setup_env` executes exactly the six elevated commands of
`symlinkCommands` — three removals then three symlink creations — in order
(followed only by the two version-verification spawns), and a non-zero exit
at any of the six aborts the run with `RuntimeError`, the already-executed
prefix being spawned and nothing further (no rollback commands). -/
theorem setup_env_symlink_sequence (w : World) (pv en p pp : String)
    (hc : w.which "conda" = some p)
    (hcreate : (w.exec (createCmd pv en)).1 = 0)
    (hbase : (w.exec ["conda", "info", "--base"]).1 = 0)
    (hpy : w.which "python" = some pp)
    (hsudo : (w.which "sudo").isSome) :
    ((∀ c ∈ symlinkCommands pp (pyStrip (w.exec ["conda", "info", "--base"]).2.1) en,
        (w.exec c).1 = 0) →
      (w.which "pip").isSome →
      (setup_env w pv en).2 = Except.ok () ∧
      runEvents (setup_env w pv en).1 =
        createCmd pv en ::
          (symlinkCommands pp (pyStrip (w.exec ["conda", "info", "--base"]).2.1) en ++
            [["python", "--version"], ["pip", "--version"]])) ∧
    (∀ pre c post,
      symlinkCommands pp (pyStrip (w.exec ["conda", "info", "--base"]).2.1) en = pre ++ c :: post →
      (∀ d ∈ pre, (w.exec d).1 = 0) →
      (w.exec c).1 ≠ 0 →
      (setup_env w pv en).2 =
        Except.error (Exc.runtimeError ("Command " ++ String.intercalate " " c ++ " failed.")) ∧
      runEvents (setup_env w pv en).1 = createCmd pv en :: (pre ++ [c])) := by
  obtain ⟨hr, ht⟩ := check_conda_present w p hc
  have hh : (createCmd pv en).head? = some "conda" := rfl
  constructor
  · intro hall hpip
    obtain ⟨r, hrp⟩ := Option.isSome_iff_exists.mp hpip
    have hres : ∀ c ∈ symlinkCommands pp (pyStrip (w.exec ["conda", "info", "--base"]).2.1) en,
        ∃ nm, c.head? = some nm ∧ (w.which nm).isSome :=
      fun c hcm => ⟨"sudo", symlinkCommands_head _ _ _ c hcm, hsudo⟩
    have hloop := runCommands_all_ok w _ hres hall
    simp [setup_env, pySeq, pyTry, hr, ht, hc, hh, hcreate, hbase, hpy, hrp, checkOutput,
      subprocessRun, hloop.1, hloop.2]
  · intro pre c post hsplit hpreok hcz
    have hres : ∀ d ∈ pre, ∃ nm, d.head? = some nm ∧ (w.which nm).isSome := by
      intro d hd
      refine ⟨"sudo",
        symlinkCommands_head pp (pyStrip (w.exec ["conda", "info", "--base"]).2.1) en d ?_, hsudo⟩
      rw [hsplit]
      exact List.mem_append_left _ hd
    have hcres : ∃ nm, c.head? = some nm ∧ (w.which nm).isSome := by
      refine ⟨"sudo",
        symlinkCommands_head pp (pyStrip (w.exec ["conda", "info", "--base"]).2.1) en c ?_, hsudo⟩
      rw [hsplit]
      exact List.mem_append_right _ (List.mem_cons_self _ _)
    have hloop := runCommands_fail_at w pre c post hres hpreok hcres hcz
    rw [← hsplit] at hloop
    simp [setup_env, pySeq, pyTry, hr, ht, hc, hh, hcreate, hbase, hpy, checkOutput,
      subprocessRun, hloop.1, hloop.2]

/-- A world where `conda`, `python`, `sudo` and `pip` resolve, the base
query reports `/opt/conda`, and every process exits with code 0. -/
def wLinks : World where
  which := fun n =>
    if n = "conda" ∨ n = "python" ∨ n = "sudo" ∨ n = "pip" then some ("/usr/bin/" ++ n) else none
  exec := fun _ => (0, "/opt/conda\n", "")
  env := fun _ => none
  pathExists := fun _ => false
  sysExecutable := "/usr/bin/python3"
  condacolab := Except.ok ()

/-- As `wLinks`, but the first removal command exits with code 1. -/
def wLinkFail : World where
  which := fun n =>
    if n = "conda" ∨ n = "python" ∨ n = "sudo" ∨ n = "pip" then some ("/usr/bin/" ++ n) else none
  exec := fun c =>
    if c = ["sudo", "rm", "-f", "/usr/bin/python"] then (1, "", "denied")
    else (0, "/opt/conda\n", "")
  env := fun _ => none
  pathExists := fun _ => false
  sysExecutable := "/usr/bin/python3"
  condacolab := Except.ok ()

/-- Witness for C2: in `wLinks` the whole sequence succeeds; in `wLinkFail`
the very first removal fails and the run aborts with `RuntimeError`. -/
theorem setup_env_symlink_sequence_witness :
    (setup_env wLinks "3.10" "gconda").2 = Except.ok () ∧
    (setup_env wLinkFail "3.10" "gconda").2 =
      Except.error (Exc.runtimeError
        ("Command " ++ String.intercalate " " ["sudo", "rm", "-f", "/usr/bin/python"] ++ " failed.")) :=
  ⟨((setup_env_symlink_sequence wLinks "3.10" "gconda" "/usr/bin/conda" "/usr/bin/python"
      (by decide) (by decide) (by decide) (by decide) (by decide)).1
      (by decide) (by decide)).1,
   ((setup_env_symlink_sequence wLinkFail "3.10" "gconda" "/usr/bin/conda" "/usr/bin/python"
      (by decide) (by decide) (by decide) (by decide) (by decide)).2
      [] ["sudo", "rm", "-f", "/usr/bin/python"]
      [["sudo", "rm", "-f", "/usr/bin/python3"],
       ["sudo", "rm", "-f", "/usr/bin/pip"],
       ["sudo", "ln", "-sf", "/opt/conda/envs/gconda/bin/python3", "/usr/bin/python"],
       ["sudo", "ln", "-sf", "/opt/conda/envs/gconda/bin/python3", "/usr/bin/python3"],
       ["sudo", "ln", "-sf", "/opt/conda/envs/gconda/bin/pip", "/usr/bin/pip"]]
      (by decide) (by simp) (by decide)).1⟩
